import Mathlib

/-
Verification of the domain-routing and task-polling subsystem of the
sda-mcp gateway (src/agents/router.py and src/agents/task/tools.py).

The Python code is shallowly embedded: pure helpers become Lean
functions over `List Char` / `String`; the stateful pieces (the domain
agent cache, the polling loop) are embedded with explicit state passing
and an oracle for the remote task source.  Machine details that the
verified claims do not touch (float rendering of durations, datetime
formatting) are modelled structurally, as noted at each definition.
-/

namespace SdaMcp

/-! ## String primitives

Models of the Python string operations used by the router:
`str.lower()`, the `needle in hay` substring test, and the
`re.search(r'\b' + re.escape(kw) + r'\b', q)` whole-word test. -/

/-- Python `str.lower()`, character-by-character (the queries and
keywords involved are ASCII, where the two coincide). -/
def lowerChars (s : String) : List Char :=
  s.toList.map Char.toLower

/-- Python `needle in hay` (contiguous-substring test) over char lists:
true iff `needle` is a prefix of some suffix of `hay`. -/
def containsSubList (hay needle : List Char) : Bool :=
  match hay with
  | [] => needle.isEmpty
  | _ :: rest => needle.isPrefixOf hay || containsSubList rest needle

/-- Python `term in query_lower` for a string literal `term`. -/
def strIn (needle : String) (hay : List Char) : Bool :=
  containsSubList hay needle.toList

/-- Python regex word character `\w` (the ASCII fragment; every query
and keyword the claims touch is ASCII). -/
def isWordChar (c : Char) : Bool :=
  c.isAlphanum || c == '_'

/-- The keyword occurs at index `i` of the query. -/
def matchesAt (kw q : List Char) (i : Nat) : Bool :=
  kw.isPrefixOf (q.drop i)

/-- A `\b` boundary holds just before index `i` (start of string, or a
non-word character at `i - 1`); faithful for keywords that begin with a
word character, which all `DOMAIN_KEYWORDS` entries do. -/
def boundaryBefore (q : List Char) (i : Nat) : Bool :=
  i == 0 || !(isWordChar (q.getD (i - 1) ' '))

/-- A `\b` boundary holds just after the match ending at `i + |kw|`
(end of string, or a non-word character there); faithful for keywords
that end with a word character, which all `DOMAIN_KEYWORDS` entries do. -/
def boundaryAfter (kw q : List Char) (i : Nat) : Bool :=
  decide (q.length ≤ i + kw.length) || !(isWordChar (q.getD (i + kw.length) ' '))

/-- Python `re.search(r'\b' + re.escape(kw) + r'\b', q) is not None`:
the keyword occurs somewhere in `q` bounded by word boundaries. -/
def wholeWordMatch (kw q : List Char) : Bool :=
  (List.range (q.length + 1)).any fun i =>
    matchesAt kw q i && boundaryBefore q i && boundaryAfter kw q i

/-! ## Domain classifier (src/agents/router.py, classify_query) -/

/-- The static keyword table `DOMAIN_KEYWORDS` of src/agents/router.py,
in source order (Python dicts preserve insertion order). -/
def DOMAIN_KEYWORDS : List (String × List String) :=
  [("authentication", ["auth", "authentication", "login", "token", "credential", "user", "password", "certificate", "connect", "connection"]),
   ("appliance", ["imc", "appliance", "cisco imc", "hardware", "server"]),
   ("system", ["backup", "restore", "health", "performance", "platform", "license", "certificate", "user", "role", "disaster recovery"]),
   ("connectivity", ["fabric", "wireless", "wired", "sda", "sd-access", "connectivity"]),
   ("ecosystem", ["itsm", "integration", "ecosystem"]),
   ("events", ["event", "events", "notification", "alert"]),
   ("network_inventory", ["device", "inventory", "client", "application", "compliance", "eox", "sensor", "site", "topology", "security", "advisory"]),
   ("operational_tasks", ["command", "discovery", "file", "path", "trace", "report", "tag", "task", "operation"]),
   ("policy", ["policy", "endpoint", "analytics", "application policy"]),
   ("site_management", ["configuration", "template", "onboarding", "pnp", "replacement", "automation", "lan automation", "network settings", "site design", "swim", "software image"]),
   ("system_settings", ["setting", "settings", "configuration", "system config"]),
   ("assurance", ["assurance", "monitoring", "analytics", "health", "performance", "issue", "problem"])]

/-- Per-keyword contribution to a domain score, as the loop body of
`classify_query` computes it: 2 for a whole-word match, 1 for a bare
substring match, 0 otherwise. -/
def keywordScore (q : List Char) (kw : String) : Nat :=
  if containsSubList q kw.toList then
    (if wholeWordMatch kw.toList q then 2 else 1)
  else 0

/-- Score accumulated over one domain's keyword list. -/
def domainScore (q : List Char) (kws : List String) : Nat :=
  kws.foldl (fun s kw => s + keywordScore q kw) 0

/-- Python `max(items, key=lambda x: x[1])` starting from `x`: keeps
the current best unless a later item is strictly greater, so the first
of equal maxima wins. -/
def maxByScore (x : String × Nat) (xs : List (String × Nat)) : String × Nat :=
  xs.foldl (fun best y => if y.2 > best.2 then y else best) x

/-- Authentication-intent override terms of `classify_query`. -/
def authOverrideTerms : List String := ["connect", "login", "auth", "authenticate"]

/-- Fabric/SDA-intent override terms of `classify_query`. -/
def sdaOverrideTerms : List String := ["fabric", "sda", "sd-access", "virtual network", "site provision"]

/-- Device/inventory-intent override terms of `classify_query`. -/
def deviceOverrideTerms : List String := ["device", "inventory", "network device", "switch", "router"]

/-- Task/job/status-intent override terms of `classify_query`. -/
def taskOverrideTerms : List String := ["task", "job", "status", "operation"]

/-- Final block of `classify_query` (src/agents/router.py lines 59-65):
`if domain_scores: best = max(items, key=score); if best[1] > 0: return
best[0]` and the fallback `return "sda"`. -/
def bestScoreDomain (domain_scores : List (String × Nat)) : String :=
  match domain_scores with
  | [] => "sda"
  | s :: rest =>
    let best := maxByScore s rest
    if best.2 > 0 then best.1 else "sda"

/-- src/agents/router.py, `classify_query`: lower-case the query, score
every domain of `DOMAIN_KEYWORDS`, then check the four override term
lists in order (they return before the scores are consulted), else
return the highest-scoring domain (first-seen wins ties, Python `max`)
when its score is positive, and the fallback "sda" otherwise. -/
def classify_query (query : String) : String :=
  let query_lower := lowerChars query
  let domain_scores := DOMAIN_KEYWORDS.map (fun dk => (dk.1, domainScore query_lower dk.2))
  if authOverrideTerms.any (fun t => strIn t query_lower) then "authentication"
  else if sdaOverrideTerms.any (fun t => strIn t query_lower) then "sda"
  else if deviceOverrideTerms.any (fun t => strIn t query_lower) then "devices"
  else if taskOverrideTerms.any (fun t => strIn t query_lower) then "task"
  else bestScoreDomain domain_scores

/-- The `domain_mapping` table of `load_domain_agent`
(src/agents/router.py): abstract domain name to actual agent module. -/
def domain_mapping : List (String × String) :=
  [("authentication", "authentication"),
   ("appliance", "devices"),
   ("system", "devices"),
   ("connectivity", "sda"),
   ("ecosystem", "task"),
   ("events", "task"),
   ("network_inventory", "devices"),
   ("operational_tasks", "task"),
   ("policy", "sda"),
   ("site_management", "devices"),
   ("system_settings", "devices"),
   ("assurance", "devices"),
   ("sda", "sda"),
   ("devices", "devices"),
   ("task", "task")]

/-- Keys of the domain-to-group mapping. -/
def domainMappingKeys : List String :=
  domain_mapping.map Prod.fst

/-! ## Spec-side restatement of the scoring rule (for the refinement
claim about step 2/4 of the classifier algorithm) -/

/-- Scoring as the spec words it: +1 for the keyword found as a
substring of the query, and an extra +1 when it additionally matches as
a whole word. -/
def specKeywordScore (q : List Char) (kw : String) : Nat :=
  (if containsSubList q kw.toList then 1 else 0) +
  (if containsSubList q kw.toList && wholeWordMatch kw.toList q then 1 else 0)

/-- Spec-side per-domain total. -/
def specDomainScore (q : List Char) (kws : List String) : Nat :=
  kws.foldl (fun s kw => s + specKeywordScore q kw) 0

/-- Score-based classification as the spec words it: compute every
domain's score, take the maximum; if every domain scores 0 return the
default domain, otherwise return the first domain (in table order)
attaining the maximum. -/
def specClassifyScores (query : String) : String :=
  let q := lowerChars query
  let scores := DOMAIN_KEYWORDS.map (fun dk => (dk.1, specDomainScore q dk.2))
  let m := (scores.map Prod.snd).foldl Nat.max 0
  if m = 0 then "sda"
  else
    match scores.find? (fun p => p.2 == m) with
    | some p => p.1
    | none => "sda"

/-! ## Helper lemmas about the running maximum -/

theorem maxByScore_mem (xs : List (String × Nat)) : ∀ x, maxByScore x xs ∈ x :: xs := by
  induction xs with
  | nil => intro x; simp [maxByScore]
  | cons y ys ih =>
    intro x
    have hstep : maxByScore x (y :: ys) = maxByScore (if y.2 > x.2 then y else x) ys := rfl
    rw [hstep]
    by_cases hc : y.2 > x.2
    · rw [if_pos hc]
      rcases List.mem_cons.mp (ih y) with h1 | h1
      · rw [h1]; simp
      · simp [List.mem_cons]; tauto
    · rw [if_neg hc]
      rcases List.mem_cons.mp (ih x) with h1 | h1
      · rw [h1]; simp
      · simp [List.mem_cons]; tauto

theorem le_maxByScore_snd (xs : List (String × Nat)) : ∀ x, x.2 ≤ (maxByScore x xs).2 := by
  induction xs with
  | nil => intro x; simp [maxByScore]
  | cons y ys ih =>
    intro x
    have hstep : maxByScore x (y :: ys) = maxByScore (if y.2 > x.2 then y else x) ys := rfl
    rw [hstep]
    by_cases hc : y.2 > x.2
    · rw [if_pos hc]; exact le_trans (le_of_lt hc) (ih y)
    · rw [if_neg hc]; exact ih x

theorem maxByScore_snd (xs : List (String × Nat)) : ∀ x,
    (maxByScore x xs).2 = (xs.map Prod.snd).foldl Nat.max x.2 := by
  induction xs with
  | nil => intro x; rfl
  | cons y ys ih =>
    intro x
    have hstep : maxByScore x (y :: ys) = maxByScore (if y.2 > x.2 then y else x) ys := rfl
    rw [hstep, ih]
    simp only [List.map_cons, List.foldl_cons]
    congr 1
    by_cases hc : y.2 > x.2 <;> simp [hc] <;> omega

theorem find_maxByScore (xs : List (String × Nat)) : ∀ x,
    (x :: xs).find? (fun p => p.2 == (maxByScore x xs).2) = some (maxByScore x xs) := by
  induction xs with
  | nil =>
    intro x
    simp [maxByScore, List.find?_cons]
  | cons y ys ih =>
    intro x
    have hstep : maxByScore x (y :: ys) = maxByScore (if y.2 > x.2 then y else x) ys := rfl
    by_cases hc : y.2 > x.2
    · have hbest : maxByScore x (y :: ys) = maxByScore y ys := by rw [hstep, if_pos hc]
      rw [hbest]
      have hxlt : x.2 < (maxByScore y ys).2 := lt_of_lt_of_le hc (le_maxByScore_snd ys y)
      have hbx : (x.2 == (maxByScore y ys).2) = false := by
        simp only [beq_eq_false_iff_ne, ne_eq]
        omega
      simp only [List.find?_cons, hbx]
      exact ih y
    · have hbest : maxByScore x (y :: ys) = maxByScore x ys := by rw [hstep, if_neg hc]
      rw [hbest]
      have hxle : x.2 ≤ (maxByScore x ys).2 := le_maxByScore_snd ys x
      by_cases hx2 : x.2 = (maxByScore x ys).2
      · have hbx : (x.2 == (maxByScore x ys).2) = true := by
          simp [hx2]
        have h2 := ih x
        simp only [List.find?_cons, hbx] at h2
        simp only [List.find?_cons, hbx]
        exact h2
      · have hxlt : x.2 < (maxByScore x ys).2 := lt_of_le_of_ne hxle hx2
        have hbx : (x.2 == (maxByScore x ys).2) = false := by
          simp only [beq_eq_false_iff_ne, ne_eq]
          omega
        have hby : (y.2 == (maxByScore x ys).2) = false := by
          simp only [beq_eq_false_iff_ne, ne_eq]
          omega
        have h2 := ih x
        simp only [List.find?_cons, hbx] at h2
        simp only [List.find?_cons, hbx, hby]
        exact h2

theorem bestScoreDomain_mem (scores : List (String × Nat)) :
    bestScoreDomain scores = "sda" ∨ ∃ p ∈ scores, bestScoreDomain scores = p.1 := by
  match scores with
  | [] => left; rfl
  | s :: rest =>
    by_cases h : (maxByScore s rest).2 > 0
    · right
      exact ⟨maxByScore s rest, maxByScore_mem rest s, by simp [bestScoreDomain, h]⟩
    · left
      simp [bestScoreDomain, h]

theorem bestScoreDomain_eq_spec (s : String × Nat) (rest : List (String × Nat)) :
    bestScoreDomain (s :: rest) =
      (if ((s :: rest).map Prod.snd).foldl Nat.max 0 = 0 then "sda"
       else
         match (s :: rest).find? (fun p => p.2 == ((s :: rest).map Prod.snd).foldl Nat.max 0) with
         | some p => p.1
         | none => "sda") := by
  have hm : ((s :: rest).map Prod.snd).foldl Nat.max 0 = (maxByScore s rest).2 := by
    simp only [List.map_cons, List.foldl_cons, Nat.zero_max]
    exact (maxByScore_snd rest s).symm
  rw [hm]
  by_cases h : (maxByScore s rest).2 = 0
  · simp [bestScoreDomain, h]
  · have hgt : (maxByScore s rest).2 > 0 := Nat.pos_of_ne_zero h
    simp only [bestScoreDomain, if_pos hgt, if_neg h]
    rw [find_maxByScore rest s]

theorem keywordScore_eq_spec (q : List Char) (kw : String) :
    keywordScore q kw = specKeywordScore q kw := by
  unfold keywordScore specKeywordScore
  by_cases h1 : containsSubList q kw.data = true <;>
    by_cases h2 : wholeWordMatch kw.data q = true <;> simp [h1, h2]

theorem domainScore_eq_spec (q : List Char) (kws : List String) :
    domainScore q kws = specDomainScore q kws := by
  unfold domainScore specDomainScore
  congr 1
  funext s kw
  rw [keywordScore_eq_spec]

/-! ## Claims about the classifier -/

/-- C1: every query containing one of the authentication-intent words
"connect", "login", "auth", "authenticate" (case-insensitively, as a
substring) is classified to the authentication domain, regardless of
the per-domain keyword scores. -/
theorem claim_C1_auth_override (query : String)
    (h : authOverrideTerms.any (fun t => strIn t (lowerChars query)) = true) :
    classify_query query = "authentication" := by
  unfold classify_query
  simp [h]

theorem claim_C1_auth_override_witness :
    (authOverrideTerms.any (fun t => strIn t (lowerChars "connect to switch inventory")) = true) ∧
    classify_query "connect to switch inventory" = "authentication" :=
  ⟨by decide, claim_C1_auth_override "connect to switch inventory" (by decide)⟩

/-- C4: `classify_query` is total and every domain name it can return
is a key of the `domain_mapping` table used by `load_domain_agent`, so
resolution never misses the table. -/
theorem claim_C4_classifier_total (query : String) :
    classify_query query ∈ domainMappingKeys := by
  have hkeys : ∀ dk ∈ DOMAIN_KEYWORDS, dk.1 ∈ domainMappingKeys := by decide
  simp only [classify_query]
  split
  · decide
  · split
    · decide
    · split
      · decide
      · split
        · decide
        · rcases bestScoreDomain_mem
            (DOMAIN_KEYWORDS.map fun dk => (dk.1, domainScore (lowerChars query) dk.2)) with
            h | ⟨p, hp, he⟩
          · rw [h]; decide
          · rw [he]
            rcases List.mem_map.mp hp with ⟨dk, hdk, rfl⟩
            exact hkeys dk hdk

/-- C5: when no override term list fires, `classify_query` computes
exactly the spec's scoring rule: +1 per keyword substring occurrence,
an extra +1 for a whole-word match, first-seen argmax, default "sda"
when every domain scores 0 (stated as equality with the spec-side
classifier `specClassifyScores`). -/
theorem claim_C5_score_refinement (query : String)
    (hAuth : authOverrideTerms.any (fun t => strIn t (lowerChars query)) = false)
    (hSda : sdaOverrideTerms.any (fun t => strIn t (lowerChars query)) = false)
    (hDev : deviceOverrideTerms.any (fun t => strIn t (lowerChars query)) = false)
    (hTask : taskOverrideTerms.any (fun t => strIn t (lowerChars query)) = false) :
    classify_query query = specClassifyScores query := by
  unfold classify_query specClassifyScores
  simp only [hAuth, hSda, hDev, hTask, Bool.false_eq_true, if_false, domainScore_eq_spec]
  rw [show DOMAIN_KEYWORDS.map
        (fun dk => (dk.1, specDomainScore (lowerChars query) dk.2)) =
      (("authentication", specDomainScore (lowerChars query)
          ["auth", "authentication", "login", "token", "credential", "user", "password", "certificate", "connect", "connection"]) ::
        (DOMAIN_KEYWORDS.drop 1).map
          (fun dk => (dk.1, specDomainScore (lowerChars query) dk.2))) from rfl]
  rw [bestScoreDomain_eq_spec]

theorem claim_C5_score_refinement_witness :
    ((authOverrideTerms.any (fun t => strIn t (lowerChars "backup restore please")) = false) ∧
     (sdaOverrideTerms.any (fun t => strIn t (lowerChars "backup restore please")) = false) ∧
     (deviceOverrideTerms.any (fun t => strIn t (lowerChars "backup restore please")) = false) ∧
     (taskOverrideTerms.any (fun t => strIn t (lowerChars "backup restore please")) = false)) ∧
    classify_query "backup restore please" = specClassifyScores "backup restore please" :=
  ⟨⟨by decide, by decide, by decide, by decide⟩,
    claim_C5_score_refinement "backup restore please" (by decide) (by decide) (by decide) (by decide)⟩

/-! ## Task monitor (src/agents/task/tools.py)

The Transport is abstracted by an oracle `source : Nat → FetchResult`
giving the JSON reply of the n-th task-record fetch of the scenario
(the code's `get_task_by_id` / `client.request` round trip).  Time is
modelled in whole seconds: fetches are instantaneous and only
`asyncio.sleep(check_interval_seconds)` advances the clock, so
`time.time() < max_wait_time` becomes `now < max_wait_seconds` with
`now` the seconds slept since polling began. -/

/-- A task record as `check_task_status` / `wait_for_task_completion`
consume it, with the code's `.get` defaults already applied: fields
`id` ("Unknown"), `isError` (False), `progress` ("Unknown"),
`startTime` (0), `endTime` (0), `failureReason` (""), `errorCode` (""),
`serviceType` ("Unknown"). -/
structure TaskRecord where
  id : String
  isError : Bool
  progress : String
  startTime : Int
  endTime : Int
  failureReason : String
  errorCode : String
  serviceType : String
deriving DecidableEq

/-- Reply of one GET /dna/intent/api/v1/task/{task_id}: `missing` is a
falsy reply or a reply without a "response" member (the code treats
both alike), `record` carries the nested task record. -/
inductive FetchResult where
  | missing
  | record (r : TaskRecord)
deriving DecidableEq

/-- The duration line of the status summary: no line when `startTime`
is unset, "Still running..." when only `startTime` is set, otherwise
the millisecond difference (the code renders it as seconds with two
decimals; the float formatting is abstracted). -/
inductive Duration where
  | unknown
  | running
  | elapsedMs (ms : Int)
deriving DecidableEq

/-- The structured content of `check_task_status`'s summary string. -/
structure StatusSummary where
  taskId : String
  status : String
  serviceType : String
  progress : String
  duration : Duration
  errorCode : String
  failureReason : String
  showErrorDetails : Bool
deriving DecidableEq

/-- The summary-building part of `check_task_status` (src lines
199-249): FAILED if `isError`, else COMPLETED if `endTime > 0`, else
IN PROGRESS, plus the duration and error-detail fields. -/
def summarize (task : TaskRecord) : StatusSummary :=
  ⟨task.id,
   if task.isError then "FAILED" else if task.endTime > 0 then "COMPLETED" else "IN PROGRESS",
   task.serviceType,
   task.progress,
   if task.startTime > 0 then
     (if task.endTime > 0 then Duration.elapsedMs (task.endTime - task.startTime)
      else Duration.running)
   else Duration.unknown,
   task.errorCode,
   task.failureReason,
   task.isError && (task.failureReason != "" || task.errorCode != "")⟩

/-- Return of `check_task_status`, structurally (the function returns a
string; `renderCheck` renders these). -/
inductive CheckResult where
  | notConnected
  | lookupErr (taskId : String)
  | summary (s : StatusSummary)
deriving DecidableEq

/-- src/agents/task/tools.py, `check_task_status`: connection guard,
one `get_task_by_id` fetch (the oracle's reply at index `idx`), then
either the could-not-retrieve error or the formatted summary. -/
def check_task_status (connected : Bool) (source : Nat → FetchResult) (idx : Nat)
    (task_id : String) : CheckResult :=
  if !connected then .notConnected
  else
    match source idx with
    | .missing => .lookupErr task_id
    | .record task => .summary (summarize task)

/-- Duration line rendering (float second formatting abstracted to the
raw millisecond count). -/
def renderDuration : Duration → String
  | .unknown => ""
  | .running => "Still running..."
  | .elapsedMs ms => "Duration: " ++ toString ms ++ " ms"

/-- String rendering of `check_task_status`'s return (the Python
f-string's indentation whitespace and strip() are abstracted; the
line contents are faithful). -/
def renderCheck : CheckResult → String
  | .notConnected => "Error: Not connected. Use connect() first."
  | .lookupErr tid => "Error: Could not retrieve task " ++ tid
  | .summary s =>
      "Task Status Summary:\n-------------------\nTask ID: " ++ s.taskId ++
      "\nStatus: " ++ s.status ++ "\nService Type: " ++ s.serviceType ++
      "\nProgress: " ++ s.progress ++ "\n" ++ renderDuration s.duration ++
      (if s.showErrorDetails then
        "\nError Details:\n--------------" ++
        (if s.errorCode != "" then "\nError Code: " ++ s.errorCode else "") ++
        (if s.failureReason != "" then "\nFailure Reason: " ++ s.failureReason else "")
      else "")

/-- Return of `wait_for_task_completion`, structurally (the function
returns a string; `renderWait` renders these).  `outOfFuel` is an
artifact of the fuel-bounded embedding of the while loop and is proved
unreachable whenever the check interval is positive. -/
inductive WaitReturn where
  | notConnected
  | lookupError (taskId : String)
  | finished (check : CheckResult) (elapsed : Nat)
  | timeout (taskId : String) (maxWait : Int) (elapsed : Nat)
  | outOfFuel
deriving DecidableEq

/-- Observable behaviour of one `wait_for_task_completion` call: the
returned value, the number of task-record fetches issued (including the
one the final `check_task_status` performs), and the number of sleeps
taken. -/
structure WaitTrace where
  result : WaitReturn
  fetches : Nat
  sleeps : Nat
deriving DecidableEq

/-- The while loop of `wait_for_task_completion` (src lines 273-290),
one fuel unit per iteration: while `now < maxWait`, fetch the record
(the `count`-th fetch); a malformed reply returns the lookup error at
once; a terminal record (`isError or endTime > 0`) calls
`check_task_status` (issuing fetch `count + 1`) and returns the summary
with the elapsed time; otherwise sleep `interval` seconds and loop.
Past the deadline, return the timeout message. -/
def waitLoop (source : Nat → FetchResult) (task_id : String) (maxWait : Int)
    (interval : Nat) : Nat → Nat → Nat → Nat → WaitTrace
  | 0, now, count, sleeps =>
    if (now : Int) < maxWait then ⟨.outOfFuel, count, sleeps⟩
    else ⟨.timeout task_id maxWait now, count, sleeps⟩
  | fuel + 1, now, count, sleeps =>
    if (now : Int) < maxWait then
      match source count with
      | .missing => ⟨.lookupError task_id, count + 1, sleeps⟩
      | .record task =>
        if task.isError = true ∨ task.endTime > 0 then
          ⟨.finished (check_task_status true source (count + 1) task_id) now, count + 2, sleeps⟩
        else
          waitLoop source task_id maxWait interval fuel (now + interval) (count + 1) (sleeps + 1)
    else ⟨.timeout task_id maxWait now, count, sleeps⟩

/-- src/agents/task/tools.py, `wait_for_task_completion`: connection
guard, then the polling loop from `now = 0`.  The fuel
`max_wait_seconds.toNat + 1` is enough for every positive check
interval, since each non-final iteration advances `now` by at least 1
(see `waitLoop_timeout_of_nonterminal`). -/
def wait_for_task_completion (connected : Bool) (source : Nat → FetchResult)
    (task_id : String) (max_wait_seconds : Int) (check_interval_seconds : Nat) : WaitTrace :=
  if !connected then ⟨.notConnected, 0, 0⟩
  else waitLoop source task_id max_wait_seconds check_interval_seconds
        (max_wait_seconds.toNat + 1) 0 0 0

/-- String rendering of `wait_for_task_completion`'s return (elapsed
seconds rendered as integers; Python prints one decimal). -/
def renderWait : WaitReturn → String
  | .notConnected => "Error: Not connected. Use connect() first."
  | .lookupError tid => "Error: Could not retrieve task " ++ tid
  | .finished c elapsed => renderCheck c ++ "\n\nWait Time: " ++ toString elapsed ++ " seconds"
  | .timeout tid maxWait elapsed =>
      "Timeout: Task " ++ tid ++ " did not complete within " ++ toString maxWait ++
      " seconds (waited " ++ toString elapsed ++ "s)"
  | .outOfFuel => ""

/-! ## Concrete task sources for the polling claims -/

/-- A not-yet-terminal task record: `endTime = 0`, `isError` absent
(default False). -/
def runningRecord : TaskRecord := ⟨"T1", false, "Unknown", 0, 0, "", "", "Unknown"⟩

/-- A completed task record: `endTime = 1000`, `isError = false`. -/
def doneRecord : TaskRecord := ⟨"T1", false, "Unknown", 0, 1000, "", "", "Unknown"⟩

/-- The fake task source of the poll-termination claim: two fetches of
the running record, then the completed record. -/
def completesOnThirdFetch : Nat → FetchResult := fun n =>
  if n < 2 then .record runningRecord else .record doneRecord

/-- A task source whose record never terminates. -/
def neverDoneSource : Nat → FetchResult := fun _ => .record runningRecord

/-- A task source whose replies are always malformed / not found. -/
def alwaysMissingSource : Nat → FetchResult := fun _ => FetchResult.missing

/-- A task source that would report completion at once (used to show
the nonpositive-deadline path never even fetches). -/
def immediatelyDoneSource : Nat → FetchResult := fun _ => .record doneRecord

/-! ## Claims about the polling loop -/

/-- C2 counterexample: with the claim's fake source (endTime=0 twice,
then endTime=1000, isError=false) and the default max wait 300 /
interval 5, the monitor does return a COMPLETED summary but issues 4
task-record fetches, not the 3 the claim states: the loop fetches 3
times and the final `check_task_status` call fetches once more. -/
theorem claim_C2_three_fetches_counterexample :
    (summarize doneRecord).status = "COMPLETED" ∧
    (wait_for_task_completion true completesOnThirdFetch "T1" 300 5).result =
      WaitReturn.finished (CheckResult.summary (summarize doneRecord)) 10 ∧
    (wait_for_task_completion true completesOnThirdFetch "T1" 300 5).fetches = 4 ∧
    ¬ (wait_for_task_completion true completesOnThirdFetch "T1" 300 5).fetches = 3 := by
  decide

/-- C2 amended: with that fake source the monitor returns a summary
with status COMPLETED after 3 poll fetches and 2 sleeps, and issues 4
task-record fetches in total (3 by the loop plus 1 by the final
`check_task_status`). -/
theorem claim_C2_completed_after_third_fetch :
    (wait_for_task_completion true completesOnThirdFetch "T1" 300 5).result =
      WaitReturn.finished (CheckResult.summary (summarize doneRecord)) 10 ∧
    (summarize doneRecord).status = "COMPLETED" ∧
    (wait_for_task_completion true completesOnThirdFetch "T1" 300 5).fetches = 4 ∧
    (wait_for_task_completion true completesOnThirdFetch "T1" 300 5).sleeps = 2 := by
  decide

/-- C10: with a connected client and a nonpositive `max_wait_seconds`,
the deadline test runs before the first fetch, so the monitor returns
the timeout result immediately: zero task-record fetches, zero sleeps,
whatever the task source holds. -/
theorem claim_C10_nonpositive_deadline (source : Nat → FetchResult) (task_id : String)
    (maxWait : Int) (interval : Nat) (hmw : maxWait ≤ 0) :
    wait_for_task_completion true source task_id maxWait interval
      = ⟨WaitReturn.timeout task_id maxWait 0, 0, 0⟩ := by
  have h0 : maxWait.toNat = 0 := Int.toNat_of_nonpos hmw
  have hcond : ¬ ((0 : Nat) : Int) < maxWait := by omega
  simp only [wait_for_task_completion, Bool.not_true, Bool.false_eq_true, if_false, h0,
    Nat.zero_add, waitLoop, if_neg hcond]

theorem claim_C10_nonpositive_deadline_witness :
    wait_for_task_completion true immediatelyDoneSource "T4" 0 5
      = ⟨WaitReturn.timeout "T4" 0 0, 0, 0⟩ :=
  claim_C10_nonpositive_deadline immediatelyDoneSource "T4" 0 5 (by decide)

/-- The substring test agrees with the infix relation on lists. -/
theorem containsSubList_iff (needle : List Char) :
    ∀ hay, containsSubList hay needle = true ↔ needle <:+: hay := by
  intro hay
  induction hay with
  | nil =>
    simp [containsSubList, List.isEmpty_iff]
  | cons c rest ih =>
    simp only [containsSubList, Bool.or_eq_true, ih, List.isPrefixOf_iff_prefix]
    exact (List.infix_cons_iff).symm

/-- The timeout message of `wait_for_task_completion` contains the word
"Timeout", whatever the task id, limit and elapsed time. -/
theorem renderWait_timeout_contains (tid : String) (m : Int) (e : Nat) :
    containsSubList (renderWait (WaitReturn.timeout tid m e)).toList "Timeout".toList = true := by
  rw [containsSubList_iff]
  have h1 : "Timeout".toList <+: "Timeout: Task ".toList := by decide
  have h2 : "Timeout: Task ".toList <+: (renderWait (WaitReturn.timeout tid m e)).toList := by
    simp only [renderWait, String.data_append, List.append_assoc]
    exact List.prefix_append _ _
  exact (h1.trans h2).isInfix

/-- When every fetch yields a non-terminal record, the loop keeps
polling until the deadline and then reports the timeout; the fuel bound
`maxWait ≤ now + fuel` is maintained because every iteration advances
`now` by `interval ≥ 1`. -/
theorem waitLoop_timeout_of_nonterminal (source : Nat → FetchResult) (task_id : String)
    (maxWait : Int) (interval : Nat) (hint : 1 ≤ interval)
    (hsrc : ∀ n, ∃ r, source n = FetchResult.record r ∧ r.isError = false ∧ r.endTime ≤ 0) :
    ∀ (fuel now count sleeps : Nat), maxWait ≤ (now : Int) + (fuel : Int) →
      ∃ e, (waitLoop source task_id maxWait interval fuel now count sleeps).result
            = WaitReturn.timeout task_id maxWait e := by
  intro fuel
  induction fuel with
  | zero =>
    intro now count sleeps hb
    have hcond : ¬ ((now : Nat) : Int) < maxWait := by omega
    simp only [waitLoop, if_neg hcond]
    exact ⟨now, rfl⟩
  | succ f ih =>
    intro now count sleeps hb
    by_cases hc : ((now : Nat) : Int) < maxWait
    · obtain ⟨r, hr, herr, hend⟩ := hsrc count
      have hterm : ¬ (r.isError = true ∨ r.endTime > 0) := by
        rw [herr]
        simp
        omega
      simp only [waitLoop, if_pos hc, hr, if_neg hterm]
      exact ih (now + interval) (count + 1) (sleeps + 1) (by push_cast; push_cast at hb; omega)
    · simp only [waitLoop, if_neg hc]
      exact ⟨now, rfl⟩

/-- C6: for every task source that always answers with a record that is
not terminal (`isError` never true, `endTime` never positive) and every
positive check interval, the monitor terminates: it returns the timeout
result (whose rendering contains "Timeout") and never a COMPLETED or
FAILED summary. -/
theorem claim_C6_timeout_on_nonterminal (source : Nat → FetchResult) (task_id : String)
    (maxWait : Int) (interval : Nat) (hint : 1 ≤ interval)
    (hsrc : ∀ n, ∃ r, source n = FetchResult.record r ∧ r.isError = false ∧ r.endTime ≤ 0) :
    ∃ e, (wait_for_task_completion true source task_id maxWait interval).result
          = WaitReturn.timeout task_id maxWait e ∧
      containsSubList (renderWait (WaitReturn.timeout task_id maxWait e)).toList
        "Timeout".toList = true ∧
      ∀ c el, (wait_for_task_completion true source task_id maxWait interval).result
          ≠ WaitReturn.finished c el := by
  obtain ⟨e, he⟩ := waitLoop_timeout_of_nonterminal source task_id maxWait interval hint hsrc
    (maxWait.toNat + 1) 0 0 0 (by push_cast; omega)
  have hres : (wait_for_task_completion true source task_id maxWait interval).result
      = WaitReturn.timeout task_id maxWait e := by
    simpa only [wait_for_task_completion, Bool.not_true, Bool.false_eq_true, if_false] using he
  refine ⟨e, hres, renderWait_timeout_contains task_id maxWait e, ?_⟩
  intro c el heq
  rw [hres] at heq
  exact WaitReturn.noConfusion heq

theorem claim_C6_timeout_on_nonterminal_witness :
    ∃ e, (wait_for_task_completion true neverDoneSource "T2" 1 1).result
          = WaitReturn.timeout "T2" 1 e ∧
      containsSubList (renderWait (WaitReturn.timeout "T2" 1 e)).toList
        "Timeout".toList = true ∧
      ∀ c el, (wait_for_task_completion true neverDoneSource "T2" 1 1).result
          ≠ WaitReturn.finished c el :=
  claim_C6_timeout_on_nonterminal neverDoneSource "T2" 1 1 (by decide)
    (fun _ => ⟨runningRecord, rfl, rfl, by decide⟩)

/-- If the first `k` fetches yield non-terminal records and the
`k`-th fetch (0-indexed) is malformed, the loop returns the lookup
error on that very iteration: exactly `k + 1` fetches in this call
(no retry, no summary fetch) and exactly `k` sleeps (none on the
failing iteration). -/
theorem waitLoop_lookup_error (source : Nat → FetchResult) (task_id : String)
    (maxWait : Int) (interval : Nat) :
    ∀ (k fuel now count sleeps : Nat),
      (∀ j, j < k → ∃ r, source (count + j) = FetchResult.record r ∧
        r.isError = false ∧ r.endTime ≤ 0) →
      source (count + k) = FetchResult.missing →
      (∀ j, j ≤ k → (now : Int) + (j : Int) * (interval : Int) < maxWait) →
      k < fuel →
      waitLoop source task_id maxWait interval fuel now count sleeps
        = ⟨WaitReturn.lookupError task_id, count + k + 1, sleeps + k⟩ := by
  intro k
  induction k with
  | zero =>
    intro fuel now count sleeps hpre hmiss htime hfuel
    cases fuel with
    | zero => omega
    | succ f =>
      have hc : ((now : Nat) : Int) < maxWait := by simpa using htime 0 (le_refl 0)
      rw [Nat.add_zero] at hmiss
      simp only [waitLoop, if_pos hc, hmiss]
      simp
  | succ k' ih =>
    intro fuel now count sleeps hpre hmiss htime hfuel
    cases fuel with
    | zero => omega
    | succ f =>
      have hc : ((now : Nat) : Int) < maxWait := by simpa using htime 0 (Nat.zero_le _)
      obtain ⟨r, hr, herr, hend⟩ := hpre 0 (Nat.succ_pos k')
      rw [Nat.add_zero] at hr
      have hterm : ¬ (r.isError = true ∨ r.endTime > 0) := by
        rw [herr]
        simp
        omega
      simp only [waitLoop, if_pos hc, hr, if_neg hterm]
      have hrec := ih f (now + interval) (count + 1) (sleeps + 1)
        (fun j hj => by
          have h := hpre (j + 1) (by omega)
          rwa [show count + (j + 1) = count + 1 + j by omega] at h)
        (by rwa [show count + 1 + k' = count + (k' + 1) by omega])
        (fun j hj => by
          have h := htime (j + 1) (by omega)
          push_cast at h ⊢
          have hexp : ((j : Int) + 1) * (interval : Int)
              = (j : Int) * (interval : Int) + (interval : Int) := by ring
          rw [hexp] at h
          linarith)
        (by omega)
      rw [hrec]
      simp only [WaitTrace.mk.injEq, true_and]
      exact ⟨by omega, by omega⟩

/-- C8: if a task-record fetch fails while polling (after any number of
non-terminal fetches), `wait_for_task_completion` returns the
could-not-retrieve error on that very iteration: one final fetch with
no retry, no further polling, no extra sleep; the lookup error is a
distinct outcome from every finished (COMPLETED/FAILED) summary. -/
theorem claim_C8_lookup_error_immediate (source : Nat → FetchResult) (task_id : String)
    (maxWait : Int) (interval k : Nat) (hint : 1 ≤ interval)
    (hpre : ∀ j, j < k → ∃ r, source j = FetchResult.record r ∧
      r.isError = false ∧ r.endTime ≤ 0)
    (hmiss : source k = FetchResult.missing)
    (htime : ∀ j, j ≤ k → ((j : Int) * (interval : Int)) < maxWait) :
    wait_for_task_completion true source task_id maxWait interval
      = ⟨WaitReturn.lookupError task_id, k + 1, k⟩ ∧
    renderWait (WaitReturn.lookupError task_id) = "Error: Could not retrieve task " ++ task_id ∧
    (∀ s el, WaitReturn.lookupError task_id ≠ WaitReturn.finished s el) := by
  have hkle : (k : Int) ≤ (k : Int) * (interval : Int) :=
    le_mul_of_one_le_right (by positivity) (by exact_mod_cast hint)
  have hk := htime k (le_refl k)
  have hloop := waitLoop_lookup_error source task_id maxWait interval k
    (maxWait.toNat + 1) 0 0 0
    (fun j hj => by simpa using hpre j hj)
    (by simpa using hmiss)
    (fun j hj => by simpa using htime j hj)
    (by omega)
  refine ⟨?_, rfl, fun s el h => WaitReturn.noConfusion h⟩
  simpa only [wait_for_task_completion, Bool.not_true, Bool.false_eq_true, if_false,
    Nat.zero_add] using hloop

theorem claim_C8_lookup_error_immediate_witness :
    wait_for_task_completion true alwaysMissingSource "T3" 5 1
      = ⟨WaitReturn.lookupError "T3", 0 + 1, 0⟩ ∧
    renderWait (WaitReturn.lookupError "T3") = "Error: Could not retrieve task " ++ "T3" ∧
    (∀ s el, WaitReturn.lookupError "T3" ≠ WaitReturn.finished s el) :=
  claim_C8_lookup_error_immediate alwaysMissingSource "T3" 5 1 0 (by decide)
    (fun j hj => absurd hj (by omega))
    rfl
    (fun j hj => by
      have hj0 : j = 0 := Nat.le_zero.mp hj
      subst hj0
      decide)

/-! ## Task id extraction (src/agents/task/tools.py, extract_task_id_from_response) -/

/-- A JSON value, as the heterogeneous POST responses carry them. -/
inductive Json where
  | null
  | bool (b : Bool)
  | num (n : Int)
  | str (s : String)
  | arr (elems : List Json)
  | obj (members : List (String × Json))

/-- Python `d[key]` / `key in d` on a dict (returns `none` on a
non-dict, a case the code's typed callers do not produce). -/
def Json.lookup (j : Json) (key : String) : Option Json :=
  match j with
  | .obj members => members.lookup key
  | _ => none

/-- Python truthiness of a JSON value (`if not response:`). -/
def Json.truthy : Json → Bool
  | .null => false
  | .bool b => b
  | .num n => n != 0
  | .str s => s != ""
  | .arr elems => !elems.isEmpty
  | .obj members => !members.isEmpty

/-- Python truthiness of an optional JSON value (None is falsy). -/
def pyTruthy : Option Json → Bool
  | none => false
  | some j => j.truthy

/-- The suffix of `s` after its first occurrence of `sep` (scanning
left to right), `none` when `sep` does not occur. -/
def afterFirstSub (sep : List Char) : List Char → Option (List Char)
  | [] => if sep.isEmpty then some [] else none
  | c :: rest =>
    if sep.isPrefixOf (c :: rest) then some (List.drop sep.length (c :: rest))
    else afterFirstSub sep rest

/-- Fuel-driven iteration of `afterFirstSub`: keeps the suffix after
the last non-overlapping occurrence, exactly as Python's
`s.split(sep)[-1]` scans. -/
def lastSplitSegFuel (sep : List Char) : Nat → List Char → List Char
  | 0, s => s
  | fuel + 1, s =>
    match afterFirstSub sep s with
    | none => s
    | some s2 => lastSplitSegFuel sep fuel s2

/-- Python `s.split(sep)[-1]` for a non-empty separator: each
occurrence consumes at least one character, so `s.length` steps of fuel
always reach the last segment. -/
def pySplitLast (sep s : List Char) : List Char :=
  lastSplitSegFuel sep s.length s

/-- The two top-level checks of `extract_task_id_from_response` (src
lines 42-47): top-level `taskId`, then top-level `executionId`. -/
def topLevelTaskId (response : Json) : Option Json :=
  match response.lookup "taskId" with
  | some v => some v
  | none => response.lookup "executionId"

/-- src/agents/task/tools.py, `extract_task_id_from_response`: `none`
for a falsy response, else nested `response.taskId`, else the segment
after the last `/task/` of a nested `response.url` that contains it,
else top-level `taskId`, else top-level `executionId`, else `none`.
The winning slot's raw JSON value is returned (the code does not
coerce).  A non-string nested `url` would raise a TypeError in Python;
the model falls through to the top-level checks (no caller produces
one). -/
def extract_task_id_from_response (response : Option Json) : Option Json :=
  if !(pyTruthy response) then none
  else
    match response with
    | none => none
    | some resp0 =>
      match resp0.lookup "response" with
      | some resp =>
        (match resp.lookup "taskId" with
         | some v => some v
         | none =>
           match resp.lookup "url" with
           | some (.str url) =>
             if containsSubList url.toList "/task/".toList then
               some (.str (String.mk (pySplitLast "/task/".toList url.toList)))
             else topLevelTaskId resp0
           | _ => topLevelTaskId resp0)
      | none => topLevelTaskId resp0

/-- C3: extraction priority on the claim's inputs, in the stated order:
nested `response.taskId` wins over nested url; a nested url containing
`/task/` yields the segment after the last `/task/` and wins over
top-level keys; then top-level `taskId`, then top-level `executionId`;
`None` and `{}` (and exhausting all four slots) give `none`; a nested
url without `/task/` falls through to the top-level checks. -/
theorem claim_C3_extraction_priority :
    extract_task_id_from_response
        (some (.obj [("response", .obj [("taskId", .str "A"), ("url", .str "/task/B")])]))
      = some (.str "A") ∧
    extract_task_id_from_response
        (some (.obj [("response", .obj [("url", .str "/api/v1/task/XYZ-123")])]))
      = some (.str "XYZ-123") ∧
    extract_task_id_from_response (some (.obj [("executionId", .str "E1")]))
      = some (.str "E1") ∧
    extract_task_id_from_response none = none ∧
    extract_task_id_from_response (some (.obj [])) = none ∧
    extract_task_id_from_response
        (some (.obj [("response", .obj [("url", .str "/x/task/B")]), ("taskId", .str "T")]))
      = some (.str "B") ∧
    extract_task_id_from_response
        (some (.obj [("taskId", .str "T"), ("executionId", .str "E")]))
      = some (.str "T") ∧
    extract_task_id_from_response
        (some (.obj [("response", .obj [("url", .str "/x")]), ("taskId", .str "T")]))
      = some (.str "T") ∧
    extract_task_id_from_response
        (some (.obj [("response", .obj [("progress", .str "p")])]))
      = none :=
  ⟨rfl, rfl, rfl, rfl, rfl, rfl, rfl, rfl, rfl⟩

/-! ## The remaining task tools (src/agents/task/tools.py) -/

/-- Reply of one GET /dna/intent/api/v1/tasks: `missing` is a falsy
reply or a reply without "response", `tasks` the nested record list. -/
inductive TasksFetch where
  | missing
  | tasks (rs : List TaskRecord)
deriving DecidableEq

/-- Return value of the dict-or-passthrough task tools. -/
inductive ToolResult where
  | errObj (msg : String)
  | taskJson (f : FetchResult)
  | tasksJson (f : TasksFetch)
deriving DecidableEq

/-- src/agents/task/tools.py, `get_task_by_id`: connection guard (the
not-connected dict with single key "error"), then one Transport request
whose reply is the oracle's `source idx`. -/
def get_task_by_id (connected : Bool) (source : Nat → FetchResult) (idx : Nat) : ToolResult :=
  if !connected then .errObj "Not connected. Use connect() first."
  else .taskJson (source idx)

/-- src/agents/task/tools.py, `get_tasks`: connection guard, then one
Transport request against /dna/intent/api/v1/tasks (the optional filter
arguments only shape that request's query string, which the oracle
abstracts). -/
def get_tasks (connected : Bool) (source : Nat → TasksFetch) (idx : Nat) : ToolResult :=
  if !connected then .errObj "Not connected. Use connect() first."
  else .tasksJson (source idx)

/-- Return of `get_recent_failed_tasks`, structurally (the function
returns a string; the per-record datetime rendering is abstracted by
the `report` constructor carrying the records). -/
inductive FailedTasksResult where
  | notConnected
  | noneFound
  | emptyList
  | report (rs : List TaskRecord)
deriving DecidableEq

/-- src/agents/task/tools.py, `get_recent_failed_tasks`: connection
guard, then one `get_tasks` fetch (status FAILURE, sorted by start time
descending) whose reply is the oracle's `source idx`. -/
def get_recent_failed_tasks (connected : Bool) (source : Nat → TasksFetch)
    (idx : Nat) : FailedTasksResult :=
  if !connected then .notConnected
  else
    match source idx with
    | .missing => .noneFound
    | .tasks [] => .emptyList
    | .tasks rs => .report rs

/-- The task id a wrapped operation's extracted JSON value denotes when
interpolated (ids are strings in practice). -/
def jsonIdToStr : Json → String
  | .str s => s
  | .num n => toString n
  | _ => ""

/-- Return of `execute_and_monitor_task`, structurally. -/
inductive ExecMonitorResult where
  | notConnected
  | noResponse (name : String)
  | immediate (name : String)
  | monitored (name : String) (taskId : Json) (wait : WaitTrace)
  | monitorOff (name : String) (taskId : Json)

/-- src/agents/task/tools.py, `execute_and_monitor_task`: connection
guard, run the wrapped operation (its reply is `opResponse`), report a
falsy reply, extract a task id (a falsy/absent id means immediate
completion), then either wait for completion (interval default 5) or
hand the id back, per `auto_wait`. -/
def execute_and_monitor_task (connected : Bool) (operation_name : String)
    (opResponse : Option Json) (source : Nat → FetchResult)
    (auto_wait : Bool) (max_wait_seconds : Int) : ExecMonitorResult :=
  if !connected then .notConnected
  else if !(pyTruthy opResponse) then .noResponse operation_name
  else
    let task_id := extract_task_id_from_response opResponse
    if !(pyTruthy task_id) then .immediate operation_name
    else
      match task_id with
      | none => .immediate operation_name
      | some tid =>
        if auto_wait then
          .monitored operation_name tid
            (wait_for_task_completion true source (jsonIdToStr tid) max_wait_seconds 5)
        else .monitorOff operation_name tid

/-- A Python value as the task tools return them: a `str` or a `dict`
(the only shapes occurring in src/agents/task/tools.py). -/
inductive PyRet where
  | pyStr (s : String)
  | pyDict (members : List (String × Json))

/-- The "object containing the key error" test: a string has no keys. -/
def hasErrorKey : PyRet → Bool
  | .pyStr _ => false
  | .pyDict members => (members.lookup "error").isSome

/-- The not-connected dict of `get_task_by_id` / `get_tasks` as a
Python value. -/
def errObjPyret (msg : String) : PyRet := .pyDict [("error", Json.str msg)]

/-- The Python-level value `check_task_status` returns (its annotation
is `-> str`): the rendering of the structured result. -/
def check_task_status_pyret (connected : Bool) (source : Nat → FetchResult) (idx : Nat)
    (task_id : String) : PyRet :=
  .pyStr (renderCheck (check_task_status connected source idx task_id))

/-- C9 counterexample: `check_task_status` invoked while disconnected
returns the plain string "Error: Not connected. Use connect() first.",
which is not an object containing the key "error" — so not every task
tool invoked while disconnected returns an error-keyed object. -/
theorem claim_C9_error_object_counterexample :
    check_task_status false alwaysMissingSource 0 "T1" = CheckResult.notConnected ∧
    check_task_status_pyret false alwaysMissingSource 0 "T1"
      = PyRet.pyStr "Error: Not connected. Use connect() first." ∧
    hasErrorKey (check_task_status_pyret false alwaysMissingSource 0 "T1") = false :=
  ⟨rfl, rfl, rfl⟩

/-- C9 amended: every task tool invoked while disconnected returns its
guard value before any Transport call — the result is the same for
every Transport oracle, so no request is consulted — and never raises:
`get_task_by_id` and `get_tasks` return the dict with single key
"error", while `check_task_status`, `wait_for_task_completion`,
`get_recent_failed_tasks` and `execute_and_monitor_task` return the
string "Error: Not connected. Use connect() first.". -/
theorem claim_C9_disconnected_guard :
    (∀ (source : Nat → FetchResult) (idx : Nat),
      get_task_by_id false source idx = ToolResult.errObj "Not connected. Use connect() first.") ∧
    (∀ (source : Nat → TasksFetch) (idx : Nat),
      get_tasks false source idx = ToolResult.errObj "Not connected. Use connect() first.") ∧
    (∀ (source : Nat → FetchResult) (idx : Nat) (tid : String),
      check_task_status false source idx tid = CheckResult.notConnected ∧
      renderCheck (check_task_status false source idx tid)
        = "Error: Not connected. Use connect() first.") ∧
    (∀ (source : Nat → FetchResult) (tid : String) (mw : Int) (iv : Nat),
      wait_for_task_completion false source tid mw iv = ⟨WaitReturn.notConnected, 0, 0⟩ ∧
      renderWait WaitReturn.notConnected = "Error: Not connected. Use connect() first.") ∧
    (∀ (source : Nat → TasksFetch) (idx : Nat),
      get_recent_failed_tasks false source idx = FailedTasksResult.notConnected) ∧
    (∀ (name : String) (op : Option Json) (source : Nat → FetchResult) (aw : Bool) (mw : Int),
      execute_and_monitor_task false name op source aw mw = ExecMonitorResult.notConnected) ∧
    hasErrorKey (errObjPyret "Not connected. Use connect() first.") = true :=
  ⟨fun _ _ => rfl, fun _ _ => rfl, fun _ _ _ => ⟨rfl, rfl⟩, fun _ _ _ _ => ⟨rfl, rfl⟩,
   fun _ _ => rfl, fun _ _ _ _ _ => rfl, rfl⟩

/-! ## Domain resolution cache (src/agents/router.py, load_domain_agent) -/

/-- Python `domain_mapping.get(domain_name, domain_name)`. -/
def mapDomain (domain_name : String) : String :=
  (domain_mapping.lookup domain_name).getD domain_name

/-- src/agents/router.py, `load_domain_agent`, with the import
machinery abstracted: `loader` stands for `importlib.import_module`
plus `getattr(module, "agent")` applied to the mapped module name
(`none` models the caught ImportError/AttributeError), `cache` is the
module-global `domain_agents` dict.  Returns the resolved agent (the
`none` sentinel on failure), the new cache, and the number of load
attempts this call made. -/
def load_domain_agent {α : Type} (loader : String → Option α)
    (cache : List (String × α)) (domain_name : String) :
    Option α × List (String × α) × Nat :=
  match cache.lookup domain_name with
  | some agent => (some agent, cache, 0)
  | none =>
    match loader (mapDomain domain_name) with
    | some agent => (some agent, (domain_name, agent) :: cache, 1)
    | none => (none, cache, 1)

/-- C7: the cache memoizes successes only.  After a call resolves a
domain successfully, every later call for that domain returns the
cached handle with zero load attempts, whatever the loader meanwhile
does; a failed load returns the unavailable sentinel, leaves the cache
unchanged, and the next call for that domain performs a fresh load
attempt. -/
theorem claim_C7_cache_success_only {α : Type} (loader : String → Option α)
    (cache : List (String × α)) (d : String) :
    (∀ (a : α) (c2 : List (String × α)) (n : Nat),
      load_domain_agent loader cache d = (some a, c2, n) →
      ∀ loader2 : String → Option α, load_domain_agent loader2 c2 d = (some a, c2, 0)) ∧
    (cache.lookup d = none → loader (mapDomain d) = none →
      load_domain_agent loader cache d = (none, cache, 1)) := by
  constructor
  · intro a c2 n h loader2
    unfold load_domain_agent at h ⊢
    cases hc : cache.lookup d with
    | some agent =>
      rw [hc] at h
      simp only [Prod.mk.injEq, Option.some.injEq] at h
      obtain ⟨ha, hcache, hn⟩ := h
      subst ha
      subst hcache
      rw [hc]
    | none =>
      rw [hc] at h
      cases hl : loader (mapDomain d) with
      | some agent =>
        rw [hl] at h
        simp only [Prod.mk.injEq, Option.some.injEq] at h
        obtain ⟨ha, hcache, hn⟩ := h
        subst ha
        subst hcache
        simp [List.lookup]
      | none =>
        rw [hl] at h
        simp at h
  · intro hc hl
    unfold load_domain_agent
    rw [hc, hl]

theorem claim_C7_cache_success_only_witness :
    load_domain_agent (fun _ : String => (none : Option Nat)) [("sda", 7)] "sda"
      = (some 7, [("sda", 7)], 0) ∧
    load_domain_agent (fun _ : String => (none : Option Nat)) ([] : List (String × Nat)) "sda"
      = (none, [], 1) :=
  ⟨(claim_C7_cache_success_only (fun _ => some 7) [] "sda").1 7 [("sda", 7)] 1 rfl
      (fun _ => none),
   (claim_C7_cache_success_only (fun _ => (none : Option Nat)) [] "sda").2 rfl rfl⟩

end SdaMcp
